import Mathlib

/-!
Shallow embedding of the cartograpy layer-compositing core
(src/cartograpy/__init__.py, canvas.py, minimap.py, inspector.py,
main_window.py) and verification of the frozen claims about it.

Modelling conventions:
- numpy float64 arrays and Python floats are modelled over ℚ; Python ints
  over ℤ/ℕ.  The 4×n numpy array inside the Rects class is modelled as the
  list of its columns (one Rect per column).
- Python dicts keyed by layer id are modelled as association lists; bitmap
  caches are modelled by their key sets (the bitmap pixels play no role in
  any claim).
- Python statements that raise (IndexError, KeyError, ValueError,
  AttributeError) are modelled with a StepResult carrying the state as
  mutated so far together with an optional error: in the source the
  mutations preceding the raise persist on the self object while the rest
  of the handler is skipped.
-/

namespace Cartograpy

/-- A rectangle (src/cartograpy/__init__.py, class Rect): x, y top-left and
w, h extent.  Fields are ℚ because the Rects arrays that store them are
numpy float64 arrays (a Rects built by appends to the empty Rects has float
dtype). -/
structure Rect where
  x : ℚ := 0
  y : ℚ := 0
  w : ℚ := 0
  h : ℚ := 0
deriving DecidableEq

/-- A group of rectangles (src/cartograpy/__init__.py, class Rects): the
(4, n) numpy array self.rects is modelled as the list of its n columns. -/
structure Rects where
  cols : List Rect
deriving DecidableEq

/-- Resolution of a possibly negative Python/numpy index against a length:
a negative index counts from the end. -/
def pyResolve (i : ℤ) (n : ℕ) : ℤ :=
  if i < 0 then i + n else i

/-- Number of columns (Rects.size / len). -/
def Rects.size (rs : Rects) : ℕ := rs.cols.length

/-- Rects.append: adds a column at the end (np.append with axis=1). -/
def Rects.append (rs : Rects) (r : Rect) : Rects :=
  ⟨rs.cols ++ [r]⟩

/-- Rects.get / getitem: column at a possibly negative index; none models
IndexError. -/
def Rects.get (rs : Rects) (i : ℤ) : Option Rect :=
  let k := pyResolve i rs.size
  if 0 ≤ k ∧ k < rs.size then rs.cols[k.toNat]? else none

/-- Rects.delete: removes the column at a possibly negative index
(np.delete with axis=1); none models IndexError. -/
def Rects.delete (rs : Rects) (i : ℤ) : Option Rects :=
  let k := pyResolve i rs.size
  if 0 ≤ k ∧ k < rs.size then some ⟨rs.cols.eraseIdx k.toNat⟩ else none

/-- Rects.insert: inserts a column at a possibly negative index (np.insert
with axis=1, which accepts indices in [-n, n]); none models IndexError. -/
def Rects.insert (rs : Rects) (i : ℤ) (r : Rect) : Option Rects :=
  let k := pyResolve i rs.size
  if 0 ≤ k ∧ k ≤ rs.size then some ⟨rs.cols.insertIdx k.toNat r⟩ else none

/-- Rects.move: translates the column at a possibly negative index by
(dx, dy) in place; none models IndexError. -/
def Rects.move (rs : Rects) (i : ℤ) (dx dy : ℚ) : Option Rects :=
  let k := pyResolve i rs.size
  if 0 ≤ k ∧ k < rs.size then
    some ⟨rs.cols.mapIdx (fun j c =>
      if (j : ℤ) = k then { c with x := c.x + dx, y := c.y + dy } else c)⟩
  else none

/-- Python list indexing l[i] with a possibly negative index; none models
IndexError. -/
def pyListGet {α : Type} (l : List α) (i : ℤ) : Option α :=
  let k := pyResolve i l.length
  if 0 ≤ k ∧ k < l.length then l[k.toNat]? else none

/-- Python list item assignment l[i] = a; none models IndexError. -/
def pyListSet {α : Type} (l : List α) (i : ℤ) (a : α) : Option (List α) :=
  let k := pyResolve i l.length
  if 0 ≤ k ∧ k < l.length then some (l.set k.toNat a) else none

/-- Python del l[i]; none models IndexError. -/
def pyListDelete {α : Type} (l : List α) (i : ℤ) : Option (List α) :=
  let k := pyResolve i l.length
  if 0 ≤ k ∧ k < l.length then some (l.eraseIdx k.toNat) else none

/-- Python list.insert(i, a): unlike np.insert, out-of-range indices are
clamped, so this is total. -/
def pyListInsert {α : Type} (l : List α) (i : ℤ) (a : α) : List α :=
  let k := pyResolve i l.length
  l.insertIdx (min (max k 0).toNat l.length) a

/-- The simultaneous swap assignment l[i], l[j] = l[j], l[i]; none models
IndexError (both reads happen before either write, so an out-of-range
index mutates nothing). -/
def pyListSwap {α : Type} (l : List α) (i j : ℤ) : Option (List α) :=
  match pyListGet l i, pyListGet l j with
  | some a, some b =>
    (pyListSet l i b).bind (fun l1 => pyListSet l1 j a)
  | _, _ => none

/-- Dict lookup d[k] on an id-keyed dict modelled as an association list;
none models KeyError. -/
def dictGet (d : List (ℕ × String)) (k : ℕ) : Option String :=
  (d.find? (fun p => p.1 = k)).map (fun p => p.2)

/-- Dict assignment d[k] = v. -/
def dictSet (d : List (ℕ × String)) (k : ℕ) (v : String) : List (ℕ × String) :=
  if (d.find? (fun p => p.1 = k)).isSome then
    d.map (fun p => if p.1 = k then (k, v) else p)
  else d ++ [(k, v)]

/-- Dict deletion del d[k]; in the source every del follows a successful
lookup of the same key, so this total filter is faithful there. -/
def dictRemove (d : List (ℕ × String)) (k : ℕ) : List (ℕ × String) :=
  d.filter (fun p => ¬ p.1 = k)

/-- The values view d.values() used by the path-in-use scan. -/
def dictValues (d : List (ℕ × String)) : List String :=
  d.map (fun p => p.2)

/-- Key-set insertion for the bitmap caches (dict assignment where only the
key set matters to the claims). -/
def keySet (ks : List String) (k : String) : List String :=
  if k ∈ ks then ks else ks ++ [k]

/-- Python int(q): truncation toward zero, as applied to the minimap
camera fields. -/
def pyInt (q : ℚ) : ℤ :=
  if 0 ≤ q then q.floor else -((-q).floor)

/-- The whole mutable state touched by the MainWindow handlers: the
MainWindow fields (main_window.py reset), the Canvas fields (canvas.py
init), the Minimap fields (minimap.py reset) and the wx layer-list order
(item data per UI position, top first). -/
structure AppState where
  counter : ℕ
  paths : List (ℕ × String)
  bitmaps : List String
  destinations : Rects
  xMouse : ℚ
  yMouse : ℚ
  canvasOrder : List ℕ
  canvasVisibility : List Bool
  canvasPaths : List (ℕ × String)
  canvasBitmaps : List String
  canvasDestinations : Rects
  zoomLevel : ℤ
  minimapOrder : List ℕ
  minimapVisibility : List Bool
  minimapPaths : List (ℕ × String)
  minimapBitmaps : List String
  minimapDestinations : Rects
  minimapScaleFactor : ℚ
  camera : Rect
  uiOrder : List ℕ
deriving DecidableEq

/-- Result of one handler invocation: the state as mutated so far and, when
a Python exception was raised, its kind.  Mutations made before a raise
persist (they were applied in place to self). -/
structure StepResult where
  state : AppState
  error : Option String
deriving DecidableEq

/-- Sequencing: run the next piece of a handler only when nothing was
raised so far. -/
def StepResult.andThen (r : StepResult) (f : AppState → StepResult) : StepResult :=
  match r.error with
  | some _ => r
  | none => f r.state

/-- The state after MainWindow.reset: counters, dicts and Rects cleared,
Canvas fields cleared, Minimap.reset applied (scale factor 1 and a 400×400
camera).  The zoom level is part of the canvas view state; see scaleFactor
for its spec-modelled derivation, reset puts it at the identity level 0. -/
def resetState : AppState where
  counter := 0
  paths := []
  bitmaps := []
  destinations := ⟨[]⟩
  xMouse := 0
  yMouse := 0
  canvasOrder := []
  canvasVisibility := []
  canvasPaths := []
  canvasBitmaps := []
  canvasDestinations := ⟨[]⟩
  zoomLevel := 0
  minimapOrder := []
  minimapVisibility := []
  minimapPaths := []
  minimapBitmaps := []
  minimapDestinations := ⟨[]⟩
  minimapScaleFactor := 1
  camera := { w := 400, h := 400 }
  uiOrder := []

/-- Modelled from the spec: the scale factor derived from the canvas zoom
level.  Canvas.scale_factor and Canvas.zoom are referenced throughout
main_window.py but canvas.py (an older revision) does not define them, so
the derivation follows spec section 4.3: scale_factor is 1 at zoom level 0
and (|zoom_level| + 1) to the power zoom_level / |zoom_level| otherwise. -/
def scaleFactor (z : ℤ) : ℚ :=
  if z = 0 then 1
  else if 0 < z then ((z.natAbs : ℚ) + 1)
  else ((z.natAbs : ℚ) + 1)⁻¹

/-- Modelled from the spec: Canvas.zoom(dz) adds dz to the zoom level
(spec section 4.3, zoom(delta) with the scale factor derived, never stored
independently); the method is absent from canvas.py. -/
def canvasZoom (dz : ℤ) (s : AppState) : AppState :=
  { s with zoomLevel := s.zoomLevel + dz }

/-- Modelled from the spec: Rect.scale, called by the add handler on the
fresh Rect(0, 0, w, h) to produce the canvas-space destination, is absent
from the Rect class; per spec sections 4.3 and 6 scaling multiplies the
unscaled geometry by the scale factor (x and y are 0 at the only call
site). -/
def Rect.scale (r : Rect) (f : ℚ) : Rect :=
  ⟨r.x * f, r.y * f, r.w * f, r.h * f⟩

/-- The fit projection computed by MainWindow.__update_minimap from the
canvas destinations: the bounding box minima, the fit factor
min(w_minimap / w_max, h_minimap / h_max), the projected per-layer
destinations and the camera rectangle (camera fields pass through int()).
none models the ValueError numpy raises for the .min() of an empty array
(zero layers).  With a zero-width or zero-height bounding box numpy float
division yields inf with only a RuntimeWarning; over ℚ the quotient is 0
by convention — under either reading the projection is recomputed from a
division by zero rather than being skipped, which is the behavior at issue
in the claims. -/
def projection (wMini hMini wCanvas hCanvas : ℚ) (cols : List Rect) :
    Option (ℚ × List Rect × Rect) :=
  match cols with
  | [] => none
  | c :: cs =>
    let xMin := cs.foldl (fun a r => min a r.x) c.x
    let yMin := cs.foldl (fun a r => min a r.y) c.y
    let wMax := cs.foldl (fun a r => max a (r.x + r.w)) (c.x + c.w) - xMin
    let hMax := cs.foldl (fun a r => max a (r.y + r.h)) (c.y + c.h) - yMin
    let factor := min (wMini / wMax) (hMini / hMax)
    let dests := (c :: cs).map (fun r =>
      Rect.mk ((r.x - xMin) * factor) ((r.y - yMin) * factor)
        (r.w * factor) (r.h * factor))
    let cam := Rect.mk ((pyInt (-xMin * factor) : ℤ) : ℚ)
      ((pyInt (-yMin * factor) : ℤ) : ℚ)
      ((pyInt (wCanvas * factor) : ℤ) : ℚ)
      ((pyInt (hCanvas * factor) : ℤ) : ℚ)
    some (factor, dests, cam)

/-- MainWindow.__update_minimap: recompute the projection from the canvas
destinations and store the projected destinations and camera; when resize
is requested and the factor actually changed, also store the new minimap
scale factor (the bitmap resampling it guards only touches cache values,
which are not part of the claims).  The destinations and camera are
written before the resize check, mirroring the statement order in the
source. -/
def updateMinimap (resize : Bool) (wMini hMini wCanvas hCanvas : ℚ)
    (s : AppState) : StepResult :=
  match projection wMini hMini wCanvas hCanvas s.canvasDestinations.cols with
  | none => ⟨s, some "ValueError"⟩
  | some (factor, dests, cam) =>
    let s1 := { s with minimapDestinations := ⟨dests⟩, camera := cam }
    if ¬ resize ∨ s.minimapScaleFactor = factor then ⟨s1, none⟩
    else ⟨{ s1 with minimapScaleFactor := factor }, none⟩

/-- The minimap agrees with the fit projection of the current canvas
destinations (destinations and camera; the claims do not constrain the
cached factor). -/
def synced (wMini hMini wCanvas hCanvas : ℚ) (s : AppState) : Prop :=
  (projection wMini hMini wCanvas hCanvas s.canvasDestinations.cols).map
      (fun t => (t.2.1, t.2.2)) =
    some (s.minimapDestinations.cols, s.camera)

instance (wMini hMini wCanvas hCanvas : ℚ) (s : AppState) :
    Decidable (synced wMini hMini wCanvas hCanvas s) := by
  unfold synced
  infer_instance

/-- MainWindow.__on_layer_add: the image loader supplies the bitmap size
(w, h); the temporary file path str(counter) stands for
os.path.join(temp_dir, str(counter)), which is injective in the counter.
All four parallel structures are appended for both views, the minimap is
recomputed with resize, the UI list gets the new item at position 0
checked and selected (the posted visibility toggle it triggers is the
separate onUpdateVisibility handler), and the counter advances. -/
def onLayerAdd (w h : ℚ) (wMini hMini wCanvas hCanvas : ℚ)
    (s : AppState) : StepResult :=
  let tempFile := toString s.counter
  let destination : Rect := { w := w, h := h }
  let s1 := { s with
    paths := dictSet s.paths s.counter tempFile
    bitmaps := keySet s.bitmaps tempFile
    destinations := s.destinations.append destination
    canvasOrder := s.canvasOrder ++ [s.counter]
    canvasVisibility := s.canvasVisibility ++ [false]
    canvasPaths := dictSet s.canvasPaths s.counter tempFile
    canvasBitmaps := keySet s.canvasBitmaps tempFile
    canvasDestinations :=
      s.canvasDestinations.append (destination.scale (scaleFactor s.zoomLevel))
    minimapOrder := s.minimapOrder ++ [s.counter]
    minimapVisibility := s.minimapVisibility ++ [false]
    minimapPaths := dictSet s.minimapPaths s.counter tempFile
    minimapBitmaps := keySet s.minimapBitmaps tempFile
    minimapDestinations := s.minimapDestinations.append destination }
  (updateMinimap true wMini hMini wCanvas hCanvas s1).andThen (fun s2 =>
    ⟨{ s2 with uiOrder := s2.counter :: s2.uiOrder, counter := s2.counter + 1 },
      none⟩)

/-- MainWindow.__on_update_visibility: toggles the visibility flag of the
selected layer at mirrored index -(selected + 1) on both the canvas and
the minimap sequences. -/
def onUpdateVisibility (selected : ℕ) (s : AppState) : StepResult :=
  let index : ℤ := -((selected : ℤ) + 1)
  match pyListGet s.canvasVisibility index with
  | none => ⟨s, some "IndexError"⟩
  | some v =>
    match pyListSet s.canvasVisibility index (! v) with
    | none => ⟨s, some "IndexError"⟩
    | some cv =>
      let s1 := { s with canvasVisibility := cv }
      match pyListGet s1.minimapVisibility index with
      | none => ⟨s1, some "IndexError"⟩
      | some mv =>
        match pyListSet s1.minimapVisibility index (! mv) with
        | none => ⟨s1, some "IndexError"⟩
        | some mvs => ⟨{ s1 with minimapVisibility := mvs }, none⟩

/-- MainWindow.__on_layer_duplicate: reads the selected item data (the
source layer id) from the UI list, fetches the path keyed by that id and
the destination column at position equal to that id (the source indexes
destinations by item data, not by storage position), then inserts the new
id, a false visibility flag and the fetched destination at mirrored index
-(selected + 1) into all structures of both views, recomputes the minimap
with resize, inserts the new UI item at the selected position (checked and
selected; the posted visibility toggle is a separate handler invocation)
and advances the counter. -/
def onLayerDuplicate (selected : ℕ) (wMini hMini wCanvas hCanvas : ℚ)
    (s : AppState) : StepResult :=
  match pyListGet s.uiOrder (selected : ℤ) with
  | none => ⟨s, some "IndexError"⟩
  | some selectedData =>
    match dictGet s.canvasPaths selectedData with
    | none => ⟨s, some "KeyError"⟩
    | some path =>
      match s.canvasDestinations.get (selectedData : ℤ) with
      | none => ⟨s, some "IndexError"⟩
      | some destination =>
        let index : ℤ := -((selected : ℤ) + 1)
        let s1 := { s with paths := dictSet s.paths s.counter path }
        match s1.destinations.insert index destination with
        | none => ⟨s1, some "IndexError"⟩
        | some dests =>
          let s2 := { s1 with
            destinations := dests
            canvasOrder := pyListInsert s1.canvasOrder index s1.counter
            canvasVisibility := pyListInsert s1.canvasVisibility index false
            canvasPaths := dictSet s1.canvasPaths s1.counter path }
          match s2.canvasDestinations.insert index destination with
          | none => ⟨s2, some "IndexError"⟩
          | some cdests =>
            let s3 := { s2 with
              canvasDestinations := cdests
              minimapOrder := pyListInsert s2.minimapOrder index s2.counter
              minimapVisibility := pyListInsert s2.minimapVisibility index false
              minimapPaths := dictSet s2.minimapPaths s2.counter path }
            match s3.minimapDestinations.insert index destination with
            | none => ⟨s3, some "IndexError"⟩
            | some mdests =>
              let s4 := { s3 with minimapDestinations := mdests }
              (updateMinimap true wMini hMini wCanvas hCanvas s4).andThen
                (fun s5 =>
                  ⟨{ s5 with
                      uiOrder := pyListInsert s5.uiOrder (selected : ℤ) s5.counter
                      counter := s5.counter + 1 }, none⟩)

/-- MainWindow.__on_layer_remove: deletes the selected layer from the main
paths and destinations, from the UI list and from the canvas structures;
on the minimap it deletes the order, visibility and paths entries and then
executes self.inspector.minimap.delete(index) — but the Minimap class
(minimap.py) defines no delete method, so this statement raises
AttributeError: the minimap destinations column survives, and the
remaining handler body (the bitmap eviction guarded by the path-in-use
scan, lines 448-452, and the minimap recompute) never runs. -/
def onLayerRemove (selected : ℕ) (s : AppState) : StepResult :=
  match pyListGet s.uiOrder (selected : ℤ) with
  | none => ⟨s, some "IndexError"⟩
  | some itemData =>
    match dictGet s.paths itemData with
    | none => ⟨s, some "KeyError"⟩
    | some _path =>
      let index : ℤ := -((selected : ℤ) + 1)
      let s1 := { s with paths := dictRemove s.paths itemData }
      match s1.destinations.delete index with
      | none => ⟨s1, some "IndexError"⟩
      | some dests =>
        let s2 := { s1 with destinations := dests }
        match pyListDelete s2.uiOrder (selected : ℤ) with
        | none => ⟨s2, some "IndexError"⟩
        | some ui =>
          let s3 := { s2 with uiOrder := ui }
          match pyListDelete s3.canvasOrder index with
          | none => ⟨s3, some "IndexError"⟩
          | some co =>
            match pyListDelete s3.canvasVisibility index with
            | none => ⟨{ s3 with canvasOrder := co }, some "IndexError"⟩
            | some cv =>
              let s4 := { s3 with
                canvasOrder := co
                canvasVisibility := cv
                canvasPaths := dictRemove s3.canvasPaths itemData }
              match s4.canvasDestinations.delete index with
              | none => ⟨s4, some "IndexError"⟩
              | some cd =>
                let s5 := { s4 with canvasDestinations := cd }
                match pyListDelete s5.minimapOrder index with
                | none => ⟨s5, some "IndexError"⟩
                | some mo =>
                  match pyListDelete s5.minimapVisibility index with
                  | none => ⟨{ s5 with minimapOrder := mo }, some "IndexError"⟩
                  | some mv =>
                    let s6 := { s5 with
                      minimapOrder := mo
                      minimapVisibility := mv
                      minimapPaths := dictRemove s5.minimapPaths itemData }
                    ⟨s6, some "AttributeError"⟩

/-- MainWindow.__on_swap_layer: the event carries two UI positions; both
are mirrored with -(pos + 1) and the canvas order, visibility and
destination columns are swapped, then the minimap ones.  Each Python swap
assignment reads both cells before writing, so an out-of-range index
raises before mutating that line, with the earlier lines already
applied. -/
def onSwapLayer (a b : ℕ) (s : AppState) : StepResult :=
  let i : ℤ := -((a : ℤ) + 1)
  let j : ℤ := -((b : ℤ) + 1)
  match pyListSwap s.canvasOrder i j with
  | none => ⟨s, some "IndexError"⟩
  | some co =>
    let s1 := { s with canvasOrder := co }
    match pyListSwap s1.canvasVisibility i j with
    | none => ⟨s1, some "IndexError"⟩
    | some cv =>
      let s2 := { s1 with canvasVisibility := cv }
      match pyListSwap s2.canvasDestinations.cols i j with
      | none => ⟨s2, some "IndexError"⟩
      | some cd =>
        let s3 := { s2 with canvasDestinations := ⟨cd⟩ }
        match pyListSwap s3.minimapOrder i j with
        | none => ⟨s3, some "IndexError"⟩
        | some mo =>
          let s4 := { s3 with minimapOrder := mo }
          match pyListSwap s4.minimapVisibility i j with
          | none => ⟨s4, some "IndexError"⟩
          | some mv =>
            let s5 := { s4 with minimapVisibility := mv }
            match pyListSwap s5.minimapDestinations.cols i j with
            | none => ⟨s5, some "IndexError"⟩
            | some md => ⟨{ s5 with minimapDestinations := ⟨md⟩ }, none⟩

/-- Inspector.__on_layer_backward followed by the SwapLayerEvent it posts
to MainWindow.__on_swap_layer.  The guard in the source is
selected < n_layers — NOT selected + 1 < n_layers — so a selected last
item passes the guard and the posted swap of (selected, selected + 1)
mirrors to an out-of-range index.  The UI item juggling moves the item to
new_index (for the last item wx clamps the re-insertion back to the same
position). -/
def onLayerBackward (selected : ℕ) (s : AppState) : StepResult :=
  let n := s.uiOrder.length
  if selected < n then
    match pyListGet s.uiOrder (selected : ℤ) with
    | none => ⟨s, some "IndexError"⟩
    | some item =>
      match pyListDelete s.uiOrder (selected : ℤ) with
      | none => ⟨s, some "IndexError"⟩
      | some ui1 =>
        let s1 := { s with uiOrder := pyListInsert ui1 ((selected : ℤ) + 1) item }
        onSwapLayer selected (selected + 1) s1
  else ⟨s, none⟩

/-- Inspector.__on_layer_forward followed by the SwapLayerEvent it posts to
MainWindow.__on_swap_layer; the guard selected > 0 correctly protects the
front boundary. -/
def onLayerForward (selected : ℕ) (s : AppState) : StepResult :=
  if 0 < selected then
    match pyListGet s.uiOrder (selected : ℤ) with
    | none => ⟨s, some "IndexError"⟩
    | some item =>
      match pyListDelete s.uiOrder (selected : ℤ) with
      | none => ⟨s, some "IndexError"⟩
      | some ui1 =>
        let s1 := { s with uiOrder := pyListInsert ui1 ((selected : ℤ) - 1) item }
        onSwapLayer selected (selected - 1) s1
  else ⟨s, none⟩

/-- The four arrow keys handled by MainWindow.__on_key_down. -/
inductive ArrowKey where
  | left
  | up
  | right
  | down
deriving DecidableEq

/-- MainWindow.__on_key_down: moves the selected layer (mirrored index
-(selected + 1)) on the canvas by the ceiling of the scale factor; it
never touches the minimap. -/
def onKeyDown (key : ArrowKey) (selected : ℕ) (s : AppState) : StepResult :=
  let index : ℤ := -((selected : ℤ) + 1)
  let c : ℚ := ((⌈scaleFactor s.zoomLevel⌉ : ℤ) : ℚ)
  let (dx, dy) : ℚ × ℚ :=
    match key with
    | ArrowKey.left => (-c, 0)
    | ArrowKey.up => (0, -c)
    | ArrowKey.right => (c, 0)
    | ArrowKey.down => (0, c)
  match s.canvasDestinations.move index dx dy with
  | none => ⟨s, some "IndexError"⟩
  | some cd => ⟨{ s with canvasDestinations := cd }, none⟩

/-- MainWindow.__on_motion with the left button down: updates the stored
mouse position, moves the selected layer by the mouse delta and recomputes
the minimap (without resize). -/
def onMotionDrag (x y : ℚ) (selected : ℕ)
    (wMini hMini wCanvas hCanvas : ℚ) (s : AppState) : StepResult :=
  let dx := x - s.xMouse
  let dy := y - s.yMouse
  let s1 := { s with xMouse := x, yMouse := y }
  let index : ℤ := -((selected : ℤ) + 1)
  match s1.canvasDestinations.move index dx dy with
  | none => ⟨s1, some "IndexError"⟩
  | some cd =>
    updateMinimap false wMini hMini wCanvas hCanvas
      { s1 with canvasDestinations := cd }

/-- MainWindow.__on_motion with the middle button down: updates the stored
mouse position, moves every canvas destination by the mouse delta (the
loop bound is the length of the master destinations) and recomputes the
minimap (without resize). -/
def onMotionPan (x y : ℚ) (wMini hMini wCanvas hCanvas : ℚ)
    (s : AppState) : StepResult :=
  let dx := x - s.xMouse
  let dy := y - s.yMouse
  let s1 := { s with xMouse := x, yMouse := y }
  let k := s1.destinations.size
  let moved := s1.canvasDestinations.cols.mapIdx (fun i c =>
    if i < k then { c with x := c.x + dx, y := c.y + dy } else c)
  let s2 := { s1 with canvasDestinations := ⟨moved⟩ }
  if k ≤ s1.canvasDestinations.size then
    updateMinimap false wMini hMini wCanvas hCanvas s2
  else ⟨s2, some "IndexError"⟩

/-- The zoom-level step applied by MainWindow.__on_mousewheel for a wheel
rotation. -/
def zoomStep (rotation : ℤ) (z : ℤ) : ℤ :=
  if 0 < rotation then z + 1 else if rotation < 0 then z - 1 else z

/-- MainWindow.__on_mousewheel: remembers the old scale factor, steps the
zoom level by the wheel direction, then rewrites the canvas destination
rows: x and y by the anchored-zoom formula about the mouse position with
the factor ratio, w and h as the master (unscaled) destination extents
times the new factor; finally recomputes the minimap with resize.  The
row-wise numpy assignments are modelled column-wise with zipWith (the
row assignment requires the two arrays to have equal length, which the
length hypotheses of the theorems carry). -/
def onMousewheel (x y : ℚ) (rotation : ℤ)
    (wMini hMini wCanvas hCanvas : ℚ) (s : AppState) : StepResult :=
  let oldFactor := scaleFactor s.zoomLevel
  let z1 := zoomStep rotation s.zoomLevel
  let nf := scaleFactor z1
  let cols := List.zipWith (fun c m =>
      Rect.mk (x - nf / oldFactor * (x - c.x)) (y - nf / oldFactor * (y - c.y))
        (m.w * nf) (m.h * nf))
    s.canvasDestinations.cols s.destinations.cols
  let s1 := { s with zoomLevel := z1, canvasDestinations := ⟨cols⟩ }
  updateMinimap true wMini hMini wCanvas hCanvas s1

/-- A sequence of mousewheel events at a fixed anchor, as fired by
repeated wheel rotations. -/
def zoomSeq (x y : ℚ) (rotations : List ℤ)
    (wMini hMini wCanvas hCanvas : ℚ) (s : AppState) : StepResult :=
  rotations.foldl
    (fun r rotation => r.andThen (onMousewheel x y rotation wMini hMini wCanvas hCanvas))
    ⟨s, none⟩

/-- Canvas.__on_paint: walks order with its index, skips entries whose
visibility flag is false and draws the rest, earliest first (so earlier
entries sit at the back).  The value is the composited sequence
back-to-front; none models the IndexError when visibility is shorter than
order. -/
def paintSeq : List ℕ → List Bool → Option (List ℕ)
  | [], _ => some []
  | _ :: _, [] => none
  | k :: ks, v :: vs =>
    (paintSeq ks vs).map (fun rest => if v then k :: rest else rest)

/-- The render order as the specification words it: the reverse of the
subsequence of order whose visibility flag is true (spec section 4.2).
Stated from the spec for comparison against paintSeq, which is the
translation of the source paint loop. -/
def specRenderOrder (order : List ℕ) (visibility : List Bool) : List ℕ :=
  (((order.zip visibility).filter (fun p => p.2)).map (fun p => p.1)).reverse

/-- Reachable one-layer state: a 100×100 image added to a fresh map (the
posted check event then makes it visible). -/
def stateOne : AppState :=
  (onUpdateVisibility 0 (onLayerAdd 100 100 400 400 400 400 resetState).state).state

/-- Reachable two-layer state: a 100×100 image (id 0) then a 50×50 image
(id 1), both made visible by their posted check events; storage order is
back-to-front [0, 1], the UI list shows the newest first. -/
def stateTwo : AppState :=
  (onUpdateVisibility 0 (onLayerAdd 50 50 400 400 400 400 stateOne).state).state

/-- Reachable three-layer state exercising the duplicate handler: duplicate
the layer at UI position 1 of stateTwo (source id 0), then apply the
visibility toggle posted by the CheckItem call of that handler (selection
1).  Its storage order is [2, 0, 1], so layer ids no longer coincide with
storage positions. -/
def stateDup : AppState :=
  (onUpdateVisibility 1 (onLayerDuplicate 1 400 400 400 400 stateTwo).state).state

/-- A state whose single layer has collapsed to a point, the degenerate
geometry named by the spec (bounding box of zero width and height), with
the projection fields still holding the last valid values from before the
collapse. -/
def stateZeroBox : AppState :=
  { stateOne with
    destinations := ⟨[{ x := 0, y := 0, w := 0, h := 0 }]⟩
    canvasDestinations := ⟨[{ x := 0, y := 0, w := 0, h := 0 }]⟩
    minimapDestinations := ⟨[{ x := 5, y := 5, w := 40, h := 40 }]⟩
    camera := { x := 5, y := 5, w := 400, h := 400 } }

/-! Helper lemmas shared by the claim theorems.  The Rat arithmetic
operations are irreducible by default, which only hides their definitions
from unfolding; restoring the default transparency lets decide evaluate
the concrete states (the kernel recomputes everything itself either
way). -/

attribute [local semireducible] Rat.add Rat.mul Rat.inv Rat.sub Rat.ofScientific

theorem pyResolve_mirror (sel n : ℕ) (h : sel < n) :
    pyResolve (-((sel : ℤ) + 1)) n = ((n - sel - 1 : ℕ) : ℤ) := by
  unfold pyResolve
  rw [if_pos (by omega)]
  omega

theorem Rects.insert_mirror (rs : Rects) (sel : ℕ) (h : sel < rs.size)
    (r : Rect) :
    rs.insert (-((sel : ℤ) + 1)) r =
      some ⟨rs.cols.insertIdx (rs.size - sel - 1) r⟩ := by
  unfold Rects.insert
  rw [pyResolve_mirror sel rs.size h, if_pos (by constructor <;> omega)]
  congr 2

theorem pyListInsert_mirror {α : Type} (l : List α) (sel : ℕ)
    (h : sel < l.length) (a : α) :
    pyListInsert l (-((sel : ℤ) + 1)) a =
      l.insertIdx (l.length - sel - 1) a := by
  simp only [pyListInsert, pyResolve_mirror sel l.length h]
  rw [max_eq_left (Int.natCast_nonneg _), Int.toNat_natCast,
    min_eq_left (by omega)]

theorem getElem?_insertIdx_self {α : Type} (l : List α) (a : α) (q : ℕ)
    (h : q ≤ l.length) : (l.insertIdx q a)[q]? = some a := by
  have hq : q < (l.insertIdx q a).length := by
    rw [List.length_insertIdx q l h]
    omega
  rw [List.getElem?_eq_getElem hq]
  exact congrArg some (List.getElem_insertIdx_self l a q h)

theorem getElem?_insertIdx_succ_self {α : Type} (l : List α) (a : α) (q : ℕ)
    (h : q < l.length) : (l.insertIdx q a)[q + 1]? = l[q]? := by
  have h0 : q + 0 < l.length := by omega
  have h2 := List.getElem_insertIdx_add_succ l a q 0 h0
  rw [List.getElem?_eq_getElem (by rw [List.length_insertIdx q l (le_of_lt h)]; omega),
    List.getElem?_eq_getElem h]
  exact congrArg some (by simpa using h2)

/-! Claim C6. -/

/-- C6: for every zoom level the derived scale factor satisfies
scale_factor(z) = 1 / scale_factor(-z) and scale_factor(0) = 1, and the
factors listed for levels -3..3 are 1/4, 1/3, 1/2, 1, 2, 3, 4. -/
theorem scaleFactor_inverse_pairs :
    (∀ z : ℤ, scaleFactor z = 1 / scaleFactor (-z)) ∧
    scaleFactor 0 = 1 ∧ scaleFactor 1 = 2 ∧ scaleFactor 2 = 3 ∧
    scaleFactor 3 = 4 ∧ scaleFactor (-1) = 1 / 2 ∧
    scaleFactor (-2) = 1 / 3 ∧ scaleFactor (-3) = 1 / 4 := by
  refine ⟨?_, by norm_num [scaleFactor], by norm_num [scaleFactor],
    by norm_num [scaleFactor], by norm_num [scaleFactor],
    by norm_num [scaleFactor], by norm_num [scaleFactor],
    by norm_num [scaleFactor]⟩
  intro z
  unfold scaleFactor
  rcases lt_trichotomy z 0 with h | h | h
  · rw [if_neg (by omega), if_neg (by omega), if_neg (by omega),
      if_pos (by omega), Int.natAbs_neg, one_div]
  · subst h
    norm_num
  · rw [if_neg (by omega), if_pos h, if_neg (by omega), if_neg (by omega),
      Int.natAbs_neg, one_div, inv_inv]

/-! Claim C10. -/

/-- C10: for every Rects, rectangle and index valid for np.insert
(including negative from-the-end indices), inserting and then deleting at
the same resolved index restores the original Rects. -/
theorem Rects.insert_delete_roundtrip (rs : Rects) (r : Rect) (i : ℤ)
    (hlow : -(rs.size : ℤ) ≤ i) (hhigh : i ≤ (rs.size : ℤ)) :
    (rs.insert i r).bind (fun a => a.delete (pyResolve i rs.size)) =
      some rs := by
  have hs : rs.size = rs.cols.length := rfl
  obtain ⟨k, hk⟩ : ∃ k : ℕ, pyResolve i rs.size = (k : ℤ) :=
    ⟨(pyResolve i rs.size).toNat, by unfold pyResolve; split <;> omega⟩
  have hkn : k ≤ rs.size := by
    unfold pyResolve at hk
    split at hk <;> omega
  rw [Rects.insert, hk, if_pos (by constructor <;> omega), Option.some_bind,
    Rects.delete, Int.toNat_natCast]
  have hsize : (Rects.mk (rs.cols.insertIdx k r)).size = rs.size + 1 := by
    show (rs.cols.insertIdx k r).length = rs.size + 1
    rw [hs]
    exact List.length_insertIdx _ _ (by omega)
  rw [hsize]
  have hres : pyResolve (k : ℤ) (rs.size + 1) = (k : ℤ) := by
    unfold pyResolve
    rw [if_neg (by omega)]
  rw [hres, if_pos (by constructor <;> omega), Int.toNat_natCast]
  exact congrArg some (congrArg Rects.mk
    (List.eraseIdx_insertIdx k rs.cols))

/-- Witness for C10 at a concrete input: a two-column Rects with the
Python-style index -1, which resolves to position 1. -/
theorem Rects.insert_delete_roundtrip_witness :
    (-((Rects.mk [{ x := 1, y := 2, w := 3, h := 4 }, { w := 5 }]).size : ℤ) ≤ -1) ∧
    ((Rects.mk [{ x := 1, y := 2, w := 3, h := 4 }, { w := 5 }]).insert (-1) { h := 9 }).bind
        (fun a => a.delete (pyResolve (-1) (Rects.mk [{ x := 1, y := 2, w := 3, h := 4 }, { w := 5 }]).size)) =
      some (Rects.mk [{ x := 1, y := 2, w := 3, h := 4 }, { w := 5 }]) :=
  ⟨by decide, Rects.insert_delete_roundtrip
    (Rects.mk [{ x := 1, y := 2, w := 3, h := 4 }, { w := 5 }]) { h := 9 } (-1)
    (by decide) (by decide)⟩

/-! Claim C1. -/

/-- C1: refuted as stated, the remove handler is the code bug.  On the
reachable one-layer state the four parallel structures are aligned going
in, but __on_layer_remove raises AttributeError at
self.inspector.minimap.delete(index) (Minimap has no delete method) after
having deleted the canvas entries and the minimap order/visibility
entries, so it returns with the minimap destinations one longer than the
other three structures. -/
theorem onLayerRemove_breaks_alignment :
    (stateOne.canvasOrder.length = 1 ∧ stateOne.canvasVisibility.length = 1 ∧
      stateOne.canvasDestinations.size = 1 ∧
      stateOne.minimapDestinations.size = 1) ∧
    (onLayerRemove 0 stateOne).error = some "AttributeError" ∧
    (onLayerRemove 0 stateOne).state.canvasOrder.length = 0 ∧
    (onLayerRemove 0 stateOne).state.canvasVisibility.length = 0 ∧
    (onLayerRemove 0 stateOne).state.canvasDestinations.size = 0 ∧
    (onLayerRemove 0 stateOne).state.minimapDestinations.size = 1 := by
  decide

/-! Claim C5. -/

/-- C5: refuted as stated, the remove handler is the code bug.  Removing
the only layer referencing path "0" leaves no remaining layer referencing
it, yet the handler raises AttributeError at
self.inspector.minimap.delete(index) before the eviction block, so the
cached bitmap for "0" survives in all three caches (its own docstring
promises the file is removed when no references remain). -/
theorem onLayerRemove_no_eviction :
    (onLayerRemove 0 stateOne).error = some "AttributeError" ∧
    dictValues (onLayerRemove 0 stateOne).state.paths = [] ∧
    "0" ∈ (onLayerRemove 0 stateOne).state.bitmaps ∧
    "0" ∈ (onLayerRemove 0 stateOne).state.canvasBitmaps ∧
    "0" ∈ (onLayerRemove 0 stateOne).state.minimapBitmaps := by
  decide

/-! Claim C2. -/

/-- C2: refuted as stated, the recompute is the code bug.  With zero
layers __update_minimap raises ValueError (numpy min of an empty array),
reachably so via a middle-button pan on a fresh map; and on a bounding
box of zero width and height the recompute is not skipped: the stored
camera and minimap destinations are overwritten with values derived from
the division by the zero bbox extent instead of remaining at their last
valid values. -/
theorem updateMinimap_degenerate :
    (updateMinimap true 400 400 400 400 resetState).error = some "ValueError" ∧
    (onMotionPan 3 4 400 400 400 400 resetState).error = some "ValueError" ∧
    (updateMinimap true 400 400 400 400 stateZeroBox).error = none ∧
    (updateMinimap true 400 400 400 400 stateZeroBox).state.camera ≠
      stateZeroBox.camera ∧
    (updateMinimap true 400 400 400 400 stateZeroBox).state.minimapDestinations ≠
      stateZeroBox.minimapDestinations := by
  decide

/-! Claim C9. -/

/-- C9: refuted at the back boundary, the backward guard is the code bug.
The guard selected < n_layers passes for the last UI item (selected = 1 of
2), and the posted swap of positions (1, 2) mirrors to storage index -3 on
two-element lists, raising IndexError instead of being a no-op.  In the
interior the pair behaves as claimed: forward on UI position 1 then
backward on the moved element (now at position 0) restores the whole
state. -/
theorem onLayerBackward_boundary :
    stateTwo.uiOrder.length = 2 ∧
    (onLayerBackward 1 stateTwo).error = some "IndexError" ∧
    (onLayerForward 1 stateTwo).error = none ∧
    (onLayerBackward 0 (onLayerForward 1 stateTwo).state).error = none ∧
    (onLayerBackward 0 (onLayerForward 1 stateTwo).state).state = stateTwo := by
  decide

/-! Claim C3: counterexample. -/

/-- C3 counterexample: on the reachable state with storage order [0, 1]
(layer A then layer B added, both visible) the paint loop composites
[0, 1] — A first, at the back, B last, on top — whereas the claimed
render order, the reverse of the visible subsequence, is [1, 0]. -/
theorem paintSeq_cex :
    paintSeq stateTwo.canvasOrder stateTwo.canvasVisibility = some [0, 1] ∧
    specRenderOrder stateTwo.canvasOrder stateTwo.canvasVisibility = [1, 0] ∧
    ¬ (paintSeq stateTwo.canvasOrder stateTwo.canvasVisibility =
        some (specRenderOrder stateTwo.canvasOrder stateTwo.canvasVisibility)) := by
  decide

/-! Claim C8: counterexample. -/

/-- C8 counterexample: the arrow-key handler changes layer extents but
never recomputes the minimap.  On the reachable two-layer state the
minimap agrees with the fit projection, the left-arrow move succeeds, and
afterwards the stored minimap destinations and camera no longer equal the
fit projection of the current canvas destinations. -/
theorem onKeyDown_stale_minimap_cex :
    synced 400 400 400 400 stateTwo ∧
    (onKeyDown ArrowKey.left 0 stateTwo).error = none ∧
    ¬ synced 400 400 400 400 (onKeyDown ArrowKey.left 0 stateTwo).state := by
  decide

/-! Claim C4: counterexample. -/

/-- C4 counterexample: on the reachable three-layer state stateDup the
selected UI position 0 is layer id 1, stored at position 2, visible, with
destination 50×50.  Duplicating it succeeds and inserts fresh id 3 at
storage position 2 — but the source ends up at position 3, so the new
layer sits directly below it, the inserted destination is the 100×100
rectangle found at positional index 1 (the source id used as an index),
and the inserted visibility flag is false: none of the three claimed
copy/placement properties holds. -/
theorem onLayerDuplicate_cex :
    pyListGet stateDup.uiOrder 0 = some 1 ∧
    stateDup.canvasOrder[2]? = some 1 ∧
    stateDup.canvasVisibility[2]? = some true ∧
    stateDup.canvasDestinations.cols[2]? = some { x := 0, y := 0, w := 50, h := 50 } ∧
    (onLayerDuplicate 0 400 400 400 400 stateDup).error = none ∧
    (onLayerDuplicate 0 400 400 400 400 stateDup).state.canvasOrder.indexOf 3 = 2 ∧
    ¬ ((onLayerDuplicate 0 400 400 400 400 stateDup).state.canvasOrder.indexOf 3 =
        (onLayerDuplicate 0 400 400 400 400 stateDup).state.canvasOrder.indexOf 1 + 1 ∧
      (onLayerDuplicate 0 400 400 400 400 stateDup).state.canvasDestinations.cols[2]? =
        some { x := 0, y := 0, w := 50, h := 50 } ∧
      (onLayerDuplicate 0 400 400 400 400 stateDup).state.canvasVisibility[2]? =
        some true) := by
  decide

/-! Claim C3: amended statement. -/

/-- C3 amended: the composited sequence equals the subsequence of order
whose visibility flag is true, in order and not reversed; the empty stack
composites nothing; and in the concrete add-A-then-add-B scenario the
composited sequence is [0, 1], drawing the last-added layer B on top. -/
theorem paintSeq_amended :
    (∀ (order : List ℕ) (visibility : List Bool),
      order.length ≤ visibility.length →
      paintSeq order visibility =
        some (((order.zip visibility).filter (fun p => p.2)).map (fun p => p.1))) ∧
    paintSeq [] [] = some [] ∧
    paintSeq stateTwo.canvasOrder stateTwo.canvasVisibility = some [0, 1] := by
  refine ⟨?_, by decide, by decide⟩
  intro order
  induction order with
  | nil =>
    intro vis h
    rfl
  | cons k ks ih =>
    intro vis h
    cases vis with
    | nil => simp at h
    | cons v vs =>
      have hrec := ih vs (by simpa using h)
      cases v <;> simp [paintSeq, hrec]

/-- Witness for the amended C3 at the concrete scenario order [0, 1] with
both layers visible. -/
theorem paintSeq_amended_witness :
    ([0, 1] : List ℕ).length ≤ ([true, true] : List Bool).length ∧
    paintSeq [0, 1] [true, true] =
      some (((([0, 1] : List ℕ).zip [true, true]).filter (fun p => p.2)).map
        (fun p => p.1)) :=
  ⟨by decide, paintSeq_amended.1 [0, 1] [true, true] (by decide)⟩

/-! Lemmas about what __update_minimap reads and writes, shared by the
remaining claims. -/

theorem updateMinimap_core (rz : Bool) (wMini hMini wCanvas hCanvas : ℚ)
    (s : AppState) :
    (updateMinimap rz wMini hMini wCanvas hCanvas s).state.counter = s.counter ∧
    (updateMinimap rz wMini hMini wCanvas hCanvas s).state.canvasOrder = s.canvasOrder ∧
    (updateMinimap rz wMini hMini wCanvas hCanvas s).state.canvasVisibility = s.canvasVisibility ∧
    (updateMinimap rz wMini hMini wCanvas hCanvas s).state.canvasDestinations = s.canvasDestinations ∧
    (updateMinimap rz wMini hMini wCanvas hCanvas s).state.destinations = s.destinations ∧
    (updateMinimap rz wMini hMini wCanvas hCanvas s).state.zoomLevel = s.zoomLevel ∧
    (updateMinimap rz wMini hMini wCanvas hCanvas s).state.uiOrder = s.uiOrder := by
  cases hp : projection wMini hMini wCanvas hCanvas s.canvasDestinations.cols with
  | none => simp [updateMinimap, hp]
  | some t =>
    obtain ⟨f, dests, cam⟩ := t
    simp only [updateMinimap, hp]
    split <;> simp

theorem updateMinimap_error_of_ne_nil (rz : Bool)
    (wMini hMini wCanvas hCanvas : ℚ) (s : AppState)
    (h : s.canvasDestinations.cols ≠ []) :
    (updateMinimap rz wMini hMini wCanvas hCanvas s).error = none := by
  cases hc : s.canvasDestinations.cols with
  | nil => exact absurd hc h
  | cons c cs =>
    simp only [updateMinimap, projection, hc]
    split <;> rfl

theorem updateMinimap_synced (rz : Bool) (wMini hMini wCanvas hCanvas : ℚ)
    (s : AppState)
    (h : (updateMinimap rz wMini hMini wCanvas hCanvas s).error = none) :
    synced wMini hMini wCanvas hCanvas
      (updateMinimap rz wMini hMini wCanvas hCanvas s).state := by
  unfold synced
  cases hp : projection wMini hMini wCanvas hCanvas s.canvasDestinations.cols with
  | none => simp [updateMinimap, hp] at h
  | some t =>
    obtain ⟨f, dests, cam⟩ := t
    simp only [updateMinimap, hp]
    split <;> simp [hp]

theorem insertIdx_ne_nil {α : Type} (l : List α) (a : α) (k : ℕ)
    (h : k ≤ l.length) : l.insertIdx k a ≠ [] := by
  apply List.ne_nil_of_length_pos
  rw [List.length_insertIdx _ _ h]
  omega

/-! The duplicate handler ends with the minimap recompute followed by the
UI insertion and the counter bump; these lemmas describe that tail for an
arbitrary intermediate state, so the main theorem can instantiate them by
unification. -/

theorem dupTail_error (wMini hMini wCanvas hCanvas : ℚ) (sel : ℕ)
    (S : AppState) (hne : S.canvasDestinations.cols ≠ []) :
    ((updateMinimap true wMini hMini wCanvas hCanvas S).andThen (fun s5 =>
      ⟨{ s5 with
          uiOrder := pyListInsert s5.uiOrder (sel : ℤ) s5.counter
          counter := s5.counter + 1 }, none⟩)).error = none := by
  have herr := updateMinimap_error_of_ne_nil true wMini hMini wCanvas hCanvas S hne
  simp [StepResult.andThen, herr]

theorem dupTail_counter (wMini hMini wCanvas hCanvas : ℚ) (sel : ℕ)
    (S : AppState) (hne : S.canvasDestinations.cols ≠ []) :
    ((updateMinimap true wMini hMini wCanvas hCanvas S).andThen (fun s5 =>
      ⟨{ s5 with
          uiOrder := pyListInsert s5.uiOrder (sel : ℤ) s5.counter
          counter := s5.counter + 1 }, none⟩)).state.counter = S.counter + 1 := by
  have herr := updateMinimap_error_of_ne_nil true wMini hMini wCanvas hCanvas S hne
  have hcore := updateMinimap_core true wMini hMini wCanvas hCanvas S
  simp [StepResult.andThen, herr, hcore.1]

theorem dupTail_order (wMini hMini wCanvas hCanvas : ℚ) (sel : ℕ)
    (S : AppState) (hne : S.canvasDestinations.cols ≠ []) :
    ((updateMinimap true wMini hMini wCanvas hCanvas S).andThen (fun s5 =>
      ⟨{ s5 with
          uiOrder := pyListInsert s5.uiOrder (sel : ℤ) s5.counter
          counter := s5.counter + 1 }, none⟩)).state.canvasOrder = S.canvasOrder := by
  have herr := updateMinimap_error_of_ne_nil true wMini hMini wCanvas hCanvas S hne
  have hcore := updateMinimap_core true wMini hMini wCanvas hCanvas S
  simp [StepResult.andThen, herr, hcore.2.1]

theorem dupTail_visibility (wMini hMini wCanvas hCanvas : ℚ) (sel : ℕ)
    (S : AppState) (hne : S.canvasDestinations.cols ≠ []) :
    ((updateMinimap true wMini hMini wCanvas hCanvas S).andThen (fun s5 =>
      ⟨{ s5 with
          uiOrder := pyListInsert s5.uiOrder (sel : ℤ) s5.counter
          counter := s5.counter + 1 }, none⟩)).state.canvasVisibility =
      S.canvasVisibility := by
  have herr := updateMinimap_error_of_ne_nil true wMini hMini wCanvas hCanvas S hne
  have hcore := updateMinimap_core true wMini hMini wCanvas hCanvas S
  simp [StepResult.andThen, herr, hcore.2.2.1]

theorem dupTail_destinations (wMini hMini wCanvas hCanvas : ℚ) (sel : ℕ)
    (S : AppState) (hne : S.canvasDestinations.cols ≠ []) :
    ((updateMinimap true wMini hMini wCanvas hCanvas S).andThen (fun s5 =>
      ⟨{ s5 with
          uiOrder := pyListInsert s5.uiOrder (sel : ℤ) s5.counter
          counter := s5.counter + 1 }, none⟩)).state.canvasDestinations =
      S.canvasDestinations := by
  have herr := updateMinimap_error_of_ne_nil true wMini hMini wCanvas hCanvas S hne
  have hcore := updateMinimap_core true wMini hMini wCanvas hCanvas S
  simp [StepResult.andThen, herr, hcore.2.2.2.1]

/-! Claim C4: amended statement. -/

/-- C4 amended: duplicating the selected layer inserts a new layer with
the fresh id counter at the mirrored storage position n - selected - 1,
which places it immediately BELOW the source (the previous occupant of
that slot moves up to n - selected); the inserted visibility flag is
always false rather than a copy of the source's; and the inserted
destination is the column at positional index equal to the source's id —
equal to the source's own rectangle only when that id happens to coincide
with a storage position holding the same rectangle. -/
theorem onLayerDuplicate_amended
    (wMini hMini wCanvas hCanvas : ℚ) (s : AppState) (sel d : ℕ)
    (p : String) (rect : Rect)
    (hui : pyListGet s.uiOrder (sel : ℤ) = some d)
    (hpath : dictGet s.canvasPaths d = some p)
    (hrect : s.canvasDestinations.get (d : ℤ) = some rect)
    (hsel : sel < s.canvasOrder.length)
    (hmaster : s.destinations.size = s.canvasOrder.length)
    (hvis : s.canvasVisibility.length = s.canvasOrder.length)
    (hdest : s.canvasDestinations.size = s.canvasOrder.length)
    (hmini : s.minimapDestinations.size = s.canvasOrder.length)
    (hmirror : s.canvasOrder[s.canvasOrder.length - sel - 1]? = some d) :
    (onLayerDuplicate sel wMini hMini wCanvas hCanvas s).error = none ∧
    (onLayerDuplicate sel wMini hMini wCanvas hCanvas s).state.counter = s.counter + 1 ∧
    (onLayerDuplicate sel wMini hMini wCanvas hCanvas s).state.canvasOrder[s.canvasOrder.length - sel - 1]? = some s.counter ∧
    (onLayerDuplicate sel wMini hMini wCanvas hCanvas s).state.canvasOrder[s.canvasOrder.length - sel]? = some d ∧
    (onLayerDuplicate sel wMini hMini wCanvas hCanvas s).state.canvasVisibility[s.canvasOrder.length - sel - 1]? = some false ∧
    (onLayerDuplicate sel wMini hMini wCanvas hCanvas s).state.canvasDestinations.cols[s.canvasOrder.length - sel - 1]? = some rect := by
  have hq : s.canvasOrder.length - sel = (s.canvasOrder.length - sel - 1) + 1 := by
    omega
  have h1 := Rects.insert_mirror s.destinations sel (by omega) rect
  have h2 := Rects.insert_mirror s.canvasDestinations sel (by omega) rect
  have h3 := Rects.insert_mirror s.minimapDestinations sel (by omega) rect
  have h4 := pyListInsert_mirror s.canvasOrder sel hsel s.counter
  have h5 := pyListInsert_mirror s.canvasVisibility sel (by omega) (false : Bool)
  have hsz : s.canvasDestinations.size = s.canvasDestinations.cols.length := rfl
  simp only [onLayerDuplicate, hui, hpath, hrect, h1, h2, h3, h4, h5]
  refine ⟨?_, ?_, ?_, ?_, ?_, ?_⟩
  · rw [dupTail_error]
    exact insertIdx_ne_nil _ _ _ (by omega)
  · rw [dupTail_counter]
    exact insertIdx_ne_nil _ _ _ (by omega)
  · rw [dupTail_order]
    · exact getElem?_insertIdx_self s.canvasOrder s.counter _ (by omega)
    · exact insertIdx_ne_nil _ _ _ (by omega)
  · rw [dupTail_order]
    · obtain ⟨q, hq2, hq3⟩ : ∃ q, s.canvasOrder.length - sel = q + 1 ∧
          q = s.canvasOrder.length - sel - 1 :=
        ⟨s.canvasOrder.length - sel - 1, by omega, rfl⟩
      rw [hq2]
      show (List.insertIdx (q + 1 - 1) s.counter s.canvasOrder)[q + 1]? = some d
      rw [Nat.add_sub_cancel,
        getElem?_insertIdx_succ_self s.canvasOrder s.counter q (by omega), hq3]
      exact hmirror
    · exact insertIdx_ne_nil _ _ _ (by omega)
  · rw [dupTail_visibility]
    · rw [hvis]
      exact getElem?_insertIdx_self s.canvasVisibility false _ (by omega)
    · exact insertIdx_ne_nil _ _ _ (by omega)
  · rw [dupTail_destinations]
    · rw [hdest]
      exact getElem?_insertIdx_self s.canvasDestinations.cols rect _ (by omega)
    · exact insertIdx_ne_nil _ _ _ (by omega)

/-- Witness for the amended C4 on the reachable state stateDup, selecting
UI position 0 (source layer id 1 at storage position 2): the fresh id 3
lands at position 2 with the source right above it, the inserted
visibility is false, and the inserted rectangle is the 100×100 one found
at positional index 1. -/
theorem onLayerDuplicate_amended_witness :
    (onLayerDuplicate 0 400 400 400 400 stateDup).error = none ∧
    (onLayerDuplicate 0 400 400 400 400 stateDup).state.counter = stateDup.counter + 1 ∧
    (onLayerDuplicate 0 400 400 400 400 stateDup).state.canvasOrder[stateDup.canvasOrder.length - 0 - 1]? = some stateDup.counter ∧
    (onLayerDuplicate 0 400 400 400 400 stateDup).state.canvasOrder[stateDup.canvasOrder.length - 0]? = some 1 ∧
    (onLayerDuplicate 0 400 400 400 400 stateDup).state.canvasVisibility[stateDup.canvasOrder.length - 0 - 1]? = some false ∧
    (onLayerDuplicate 0 400 400 400 400 stateDup).state.canvasDestinations.cols[stateDup.canvasOrder.length - 0 - 1]? =
      some { x := 0, y := 0, w := 100, h := 100 } :=
  onLayerDuplicate_amended 400 400 400 400 stateDup 0 1 "1"
    { x := 0, y := 0, w := 100, h := 100 } (by decide) (by decide) (by decide)
    (by decide) (by decide) (by decide) (by decide) (by decide) (by decide)

/-! Claim C7: helper lemmas about a single mousewheel step and a sequence
of them. -/

theorem onMousewheel_destinations_eq (x y : ℚ) (rot : ℤ)
    (wMini hMini wCanvas hCanvas : ℚ) (s : AppState) :
    (onMousewheel x y rot wMini hMini wCanvas hCanvas s).state.destinations =
      s.destinations := by
  simp only [onMousewheel]
  rw [(updateMinimap_core true wMini hMini wCanvas hCanvas _).2.2.2.2.1]

theorem onMousewheel_zoomLevel_eq (x y : ℚ) (rot : ℤ)
    (wMini hMini wCanvas hCanvas : ℚ) (s : AppState) :
    (onMousewheel x y rot wMini hMini wCanvas hCanvas s).state.zoomLevel =
      zoomStep rot s.zoomLevel := by
  simp only [onMousewheel]
  rw [(updateMinimap_core true wMini hMini wCanvas hCanvas _).2.2.2.2.2.1]

theorem onMousewheel_cols_eq (x y : ℚ) (rot : ℤ)
    (wMini hMini wCanvas hCanvas : ℚ) (s : AppState) :
    (onMousewheel x y rot wMini hMini wCanvas hCanvas s).state.canvasDestinations.cols =
      List.zipWith (fun c m =>
          Rect.mk
            (x - scaleFactor (zoomStep rot s.zoomLevel) / scaleFactor s.zoomLevel * (x - c.x))
            (y - scaleFactor (zoomStep rot s.zoomLevel) / scaleFactor s.zoomLevel * (y - c.y))
            (m.w * scaleFactor (zoomStep rot s.zoomLevel))
            (m.h * scaleFactor (zoomStep rot s.zoomLevel)))
        s.canvasDestinations.cols s.destinations.cols := by
  simp only [onMousewheel]
  rw [(updateMinimap_core true wMini hMini wCanvas hCanvas _).2.2.2.1]

theorem onMousewheel_getElem (x y : ℚ) (rot : ℤ)
    (wMini hMini wCanvas hCanvas : ℚ) (s : AppState)
    (_hlen : s.canvasDestinations.size = s.destinations.size) (i : ℕ) :
    (onMousewheel x y rot wMini hMini wCanvas hCanvas s).state.canvasDestinations.cols[i]? =
      (s.canvasDestinations.cols[i]?).bind (fun c =>
        (s.destinations.cols[i]?).map (fun m =>
          Rect.mk
            (x - scaleFactor (zoomStep rot s.zoomLevel) / scaleFactor s.zoomLevel * (x - c.x))
            (y - scaleFactor (zoomStep rot s.zoomLevel) / scaleFactor s.zoomLevel * (y - c.y))
            (m.w * scaleFactor (zoomStep rot s.zoomLevel))
            (m.h * scaleFactor (zoomStep rot s.zoomLevel)))) := by
  rw [onMousewheel_cols_eq, List.getElem?_zipWith']
  cases h1 : s.canvasDestinations.cols[i]? <;> simp

theorem onMousewheel_w_formula (x y : ℚ) (rot : ℤ)
    (wMini hMini wCanvas hCanvas : ℚ) (s : AppState)
    (hlen : s.canvasDestinations.size = s.destinations.size) (i : ℕ) :
    ((onMousewheel x y rot wMini hMini wCanvas hCanvas s).state.canvasDestinations.cols[i]?).map Rect.w =
      (s.destinations.cols[i]?).map
        (fun m => m.w * scaleFactor (zoomStep rot s.zoomLevel)) := by
  have e1 : s.canvasDestinations.cols.length = s.canvasDestinations.size := rfl
  have e2 : s.destinations.cols.length = s.destinations.size := rfl
  rw [onMousewheel_getElem x y rot wMini hMini wCanvas hCanvas s hlen i]
  cases h1 : s.canvasDestinations.cols[i]? with
  | none =>
    have h2 : s.destinations.cols[i]? = none := by
      rw [List.getElem?_eq_none_iff] at h1 ⊢
      omega
    simp [h2]
  | some c =>
    cases h2 : s.destinations.cols[i]? with
    | none =>
      have h3 : i < s.canvasDestinations.cols.length := (List.getElem?_eq_some.1 h1).1
      have h4 : s.destinations.cols.length ≤ i := List.getElem?_eq_none_iff.1 h2
      exact absurd h4 (by omega)
    | some m => simp

theorem onMousewheel_h_formula (x y : ℚ) (rot : ℤ)
    (wMini hMini wCanvas hCanvas : ℚ) (s : AppState)
    (hlen : s.canvasDestinations.size = s.destinations.size) (i : ℕ) :
    ((onMousewheel x y rot wMini hMini wCanvas hCanvas s).state.canvasDestinations.cols[i]?).map Rect.h =
      (s.destinations.cols[i]?).map
        (fun m => m.h * scaleFactor (zoomStep rot s.zoomLevel)) := by
  have e1 : s.canvasDestinations.cols.length = s.canvasDestinations.size := rfl
  have e2 : s.destinations.cols.length = s.destinations.size := rfl
  rw [onMousewheel_getElem x y rot wMini hMini wCanvas hCanvas s hlen i]
  cases h1 : s.canvasDestinations.cols[i]? with
  | none =>
    have h2 : s.destinations.cols[i]? = none := by
      rw [List.getElem?_eq_none_iff] at h1 ⊢
      omega
    simp [h2]
  | some c =>
    cases h2 : s.destinations.cols[i]? with
    | none =>
      have h3 : i < s.canvasDestinations.cols.length := (List.getElem?_eq_some.1 h1).1
      have h4 : s.destinations.cols.length ≤ i := List.getElem?_eq_none_iff.1 h2
      exact absurd h4 (by omega)
    | some m => simp

theorem onMousewheel_size_eq (x y : ℚ) (rot : ℤ)
    (wMini hMini wCanvas hCanvas : ℚ) (s : AppState)
    (hlen : s.canvasDestinations.size = s.destinations.size) :
    (onMousewheel x y rot wMini hMini wCanvas hCanvas s).state.canvasDestinations.size =
      (onMousewheel x y rot wMini hMini wCanvas hCanvas s).state.destinations.size := by
  show (onMousewheel x y rot wMini hMini wCanvas hCanvas s).state.canvasDestinations.cols.length = _
  rw [onMousewheel_cols_eq, onMousewheel_destinations_eq, List.length_zipWith]
  show min s.canvasDestinations.size s.destinations.size = s.destinations.size
  omega

theorem zoomSeq_cons (x y : ℚ) (r : ℤ) (rs : List ℤ)
    (wMini hMini wCanvas hCanvas : ℚ) (s : AppState) :
    zoomSeq x y (r :: rs) wMini hMini wCanvas hCanvas s =
      rs.foldl (fun acc rotation =>
          acc.andThen (onMousewheel x y rotation wMini hMini wCanvas hCanvas))
        (onMousewheel x y r wMini hMini wCanvas hCanvas s) := by
  unfold zoomSeq
  rw [List.foldl_cons]
  rfl

theorem zoomFold_error (x y wMini hMini wCanvas hCanvas : ℚ) (rs : List ℤ)
    (st : StepResult) (e : String) (h : st.error = some e) :
    rs.foldl (fun acc rotation =>
        acc.andThen (onMousewheel x y rotation wMini hMini wCanvas hCanvas)) st =
      st := by
  induction rs with
  | nil => rfl
  | cons r rs2 ih =>
    rw [List.foldl_cons]
    have hstep : st.andThen (onMousewheel x y r wMini hMini wCanvas hCanvas) = st := by
      simp [StepResult.andThen, h]
    rw [hstep]
    exact ih

theorem zoomSeq_master_w_h (x y : ℚ) (wMini hMini wCanvas hCanvas : ℚ) :
    ∀ (rotations : List ℤ) (s : AppState), rotations ≠ [] →
      s.canvasDestinations.size = s.destinations.size →
      (zoomSeq x y rotations wMini hMini wCanvas hCanvas s).state.destinations =
        s.destinations ∧
      ∀ i : ℕ,
        ((zoomSeq x y rotations wMini hMini wCanvas hCanvas s).state.canvasDestinations.cols[i]?).map Rect.w =
          (s.destinations.cols[i]?).map (fun m =>
            m.w * scaleFactor
              (zoomSeq x y rotations wMini hMini wCanvas hCanvas s).state.zoomLevel) ∧
        ((zoomSeq x y rotations wMini hMini wCanvas hCanvas s).state.canvasDestinations.cols[i]?).map Rect.h =
          (s.destinations.cols[i]?).map (fun m =>
            m.h * scaleFactor
              (zoomSeq x y rotations wMini hMini wCanvas hCanvas s).state.zoomLevel) := by
  intro rotations
  induction rotations with
  | nil =>
    intro s hne
    exact absurd rfl hne
  | cons r rs ih =>
    intro s _ hlen
    rw [zoomSeq_cons]
    cases rs with
    | nil =>
      simp only [List.foldl_nil]
      refine ⟨onMousewheel_destinations_eq x y r wMini hMini wCanvas hCanvas s, ?_⟩
      intro i
      constructor
      · rw [onMousewheel_zoomLevel_eq]
        exact onMousewheel_w_formula x y r wMini hMini wCanvas hCanvas s hlen i
      · rw [onMousewheel_zoomLevel_eq]
        exact onMousewheel_h_formula x y r wMini hMini wCanvas hCanvas s hlen i
    | cons r2 rs2 =>
      cases he : (onMousewheel x y r wMini hMini wCanvas hCanvas s).error with
      | some e =>
        rw [zoomFold_error x y wMini hMini wCanvas hCanvas (r2 :: rs2)
          (onMousewheel x y r wMini hMini wCanvas hCanvas s) e he]
        refine ⟨onMousewheel_destinations_eq x y r wMini hMini wCanvas hCanvas s, ?_⟩
        intro i
        constructor
        · rw [onMousewheel_zoomLevel_eq]
          exact onMousewheel_w_formula x y r wMini hMini wCanvas hCanvas s hlen i
        · rw [onMousewheel_zoomLevel_eq]
          exact onMousewheel_h_formula x y r wMini hMini wCanvas hCanvas s hlen i
      | none =>
        have heta : onMousewheel x y r wMini hMini wCanvas hCanvas s =
            ⟨(onMousewheel x y r wMini hMini wCanvas hCanvas s).state, none⟩ := by
          rw [← he]
        have hstep : (r2 :: rs2).foldl (fun acc rotation =>
              acc.andThen (onMousewheel x y rotation wMini hMini wCanvas hCanvas))
            (onMousewheel x y r wMini hMini wCanvas hCanvas s) =
            zoomSeq x y (r2 :: rs2) wMini hMini wCanvas hCanvas
              (onMousewheel x y r wMini hMini wCanvas hCanvas s).state := by
          rw [heta]
          rfl
        rw [hstep]
        have hlen2 := onMousewheel_size_eq x y r wMini hMini wCanvas hCanvas s hlen
        obtain ⟨ih1, ih2⟩ := ih
          (onMousewheel x y r wMini hMini wCanvas hCanvas s).state (by simp) hlen2
        have hmaster := onMousewheel_destinations_eq x y r wMini hMini wCanvas hCanvas s
        refine ⟨by rw [ih1, hmaster], ?_⟩
        intro i
        obtain ⟨ihw, ihh⟩ := ih2 i
        rw [ihw, ihh, hmaster]
        exact ⟨rfl, rfl⟩

/-- C7: anchored zoom recomputes every canvas destination from the anchor
by x1 = anchor_x - (new_factor / old_factor) * (anchor_x - x) and
symmetrically for y, while w and h are recomputed as the unscaled master
extents (kept separately in self.destinations, which every zoom leaves
untouched) times the new factor — so after any nonempty sequence of zoom
steps every width and height equals the master extent times the final
scale factor, with no accumulated error. -/
theorem anchored_zoom_formulas (x y : ℚ) (rot : ℤ)
    (wMini hMini wCanvas hCanvas : ℚ) (s : AppState)
    (hlen : s.canvasDestinations.size = s.destinations.size) :
    (∀ i : ℕ,
      (onMousewheel x y rot wMini hMini wCanvas hCanvas s).state.canvasDestinations.cols[i]? =
        (s.canvasDestinations.cols[i]?).bind (fun c =>
          (s.destinations.cols[i]?).map (fun m =>
            Rect.mk
              (x - scaleFactor (zoomStep rot s.zoomLevel) / scaleFactor s.zoomLevel * (x - c.x))
              (y - scaleFactor (zoomStep rot s.zoomLevel) / scaleFactor s.zoomLevel * (y - c.y))
              (m.w * scaleFactor (zoomStep rot s.zoomLevel))
              (m.h * scaleFactor (zoomStep rot s.zoomLevel))))) ∧
    (∀ rotations : List ℤ, rotations ≠ [] →
      (zoomSeq x y rotations wMini hMini wCanvas hCanvas s).state.destinations =
        s.destinations ∧
      ∀ i : ℕ,
        ((zoomSeq x y rotations wMini hMini wCanvas hCanvas s).state.canvasDestinations.cols[i]?).map Rect.w =
          (s.destinations.cols[i]?).map (fun m =>
            m.w * scaleFactor
              (zoomSeq x y rotations wMini hMini wCanvas hCanvas s).state.zoomLevel) ∧
        ((zoomSeq x y rotations wMini hMini wCanvas hCanvas s).state.canvasDestinations.cols[i]?).map Rect.h =
          (s.destinations.cols[i]?).map (fun m =>
            m.h * scaleFactor
              (zoomSeq x y rotations wMini hMini wCanvas hCanvas s).state.zoomLevel)) :=
  ⟨fun i => onMousewheel_getElem x y rot wMini hMini wCanvas hCanvas s hlen i,
   fun rotations hne =>
     zoomSeq_master_w_h x y wMini hMini wCanvas hCanvas rotations s hne hlen⟩

/-- Witness for C7 on the reachable two-layer state, zooming in once at
anchor (10, 20), and for the repeated-zoom part a zoom-in-then-out
sequence. -/
theorem anchored_zoom_formulas_witness :
    ((onMousewheel 10 20 1 400 400 400 400 stateTwo).state.canvasDestinations.cols[0]? =
      (stateTwo.canvasDestinations.cols[0]?).bind (fun c =>
        (stateTwo.destinations.cols[0]?).map (fun m =>
          Rect.mk
            (10 - scaleFactor (zoomStep 1 stateTwo.zoomLevel) / scaleFactor stateTwo.zoomLevel * (10 - c.x))
            (20 - scaleFactor (zoomStep 1 stateTwo.zoomLevel) / scaleFactor stateTwo.zoomLevel * (20 - c.y))
            (m.w * scaleFactor (zoomStep 1 stateTwo.zoomLevel))
            (m.h * scaleFactor (zoomStep 1 stateTwo.zoomLevel))))) ∧
    (zoomSeq 10 20 [1, -1] 400 400 400 400 stateTwo).state.destinations =
      stateTwo.destinations ∧
    ((zoomSeq 10 20 [1, -1] 400 400 400 400 stateTwo).state.canvasDestinations.cols[0]?).map Rect.w =
      (stateTwo.destinations.cols[0]?).map (fun m =>
        m.w * scaleFactor
          (zoomSeq 10 20 [1, -1] 400 400 400 400 stateTwo).state.zoomLevel) :=
  ⟨(anchored_zoom_formulas 10 20 1 400 400 400 400 stateTwo (by decide)).1 0,
   ((anchored_zoom_formulas 10 20 1 400 400 400 400 stateTwo (by decide)).2
     [1, -1] (by decide)).1,
   (((anchored_zoom_formulas 10 20 1 400 400 400 400 stateTwo (by decide)).2
     [1, -1] (by decide)).2 0).1⟩

/-! Claim C8: the handlers that do recompute the minimap leave it equal to
the fit projection of the canvas destinations they end with, and the
arrow-key handler does not touch it. -/

theorem onMotionDrag_synced (x y : ℚ) (sel : ℕ)
    (wMini hMini wCanvas hCanvas : ℚ) (s : AppState)
    (herr : (onMotionDrag x y sel wMini hMini wCanvas hCanvas s).error = none) :
    synced wMini hMini wCanvas hCanvas
      (onMotionDrag x y sel wMini hMini wCanvas hCanvas s).state := by
  simp only [onMotionDrag] at herr ⊢
  split at herr
  · simp at herr
  · exact updateMinimap_synced false wMini hMini wCanvas hCanvas _ herr

theorem onMotionPan_synced (x y : ℚ)
    (wMini hMini wCanvas hCanvas : ℚ) (s : AppState)
    (herr : (onMotionPan x y wMini hMini wCanvas hCanvas s).error = none) :
    synced wMini hMini wCanvas hCanvas
      (onMotionPan x y wMini hMini wCanvas hCanvas s).state := by
  simp only [onMotionPan] at herr ⊢
  split at herr
  · rename_i hk
    rw [if_pos hk]
    exact updateMinimap_synced false wMini hMini wCanvas hCanvas _ herr
  · simp at herr

theorem onMousewheel_synced (x y : ℚ) (rot : ℤ)
    (wMini hMini wCanvas hCanvas : ℚ) (s : AppState)
    (herr : (onMousewheel x y rot wMini hMini wCanvas hCanvas s).error = none) :
    synced wMini hMini wCanvas hCanvas
      (onMousewheel x y rot wMini hMini wCanvas hCanvas s).state := by
  simp only [onMousewheel] at herr ⊢
  exact updateMinimap_synced true wMini hMini wCanvas hCanvas _ herr

theorem onLayerAdd_synced (w h : ℚ)
    (wMini hMini wCanvas hCanvas : ℚ) (s : AppState)
    (herr : (onLayerAdd w h wMini hMini wCanvas hCanvas s).error = none) :
    synced wMini hMini wCanvas hCanvas
      (onLayerAdd w h wMini hMini wCanvas hCanvas s).state := by
  simp only [onLayerAdd, StepResult.andThen] at herr ⊢
  split at herr
  · rename_i val heq
    rw [heq] at herr
    simp at herr
  · rename_i heq
    exact updateMinimap_synced true wMini hMini wCanvas hCanvas _ heq

theorem onLayerDuplicate_synced (sel : ℕ)
    (wMini hMini wCanvas hCanvas : ℚ) (s : AppState)
    (herr : (onLayerDuplicate sel wMini hMini wCanvas hCanvas s).error = none) :
    synced wMini hMini wCanvas hCanvas
      (onLayerDuplicate sel wMini hMini wCanvas hCanvas s).state := by
  simp only [onLayerDuplicate, StepResult.andThen] at herr ⊢
  split at herr
  · simp at herr
  · split at herr
    · simp at herr
    · split at herr
      · simp at herr
      · split at herr
        · simp at herr
        · split at herr
          · simp at herr
          · split at herr
            · simp at herr
            · split at herr
              · rename_i val heq
                rw [heq] at herr
                simp at herr
              · rename_i heq
                exact updateMinimap_synced true wMini hMini wCanvas hCanvas _ heq

theorem onKeyDown_minimap_unchanged (k : ArrowKey) (sel : ℕ) (s : AppState) :
    (onKeyDown k sel s).state.minimapDestinations = s.minimapDestinations ∧
    (onKeyDown k sel s).state.camera = s.camera := by
  simp only [onKeyDown]
  cases k <;> split <;> exact ⟨rfl, rfl⟩

/-- C8 amended: the drag, pan, zoom, add and duplicate handlers all finish
with the minimap recompute, so whenever they return without raising, the
minimap destinations and camera equal the fit projection of the canvas
destinations they leave behind; the arrow-key move handler, by contrast,
performs no recompute at all and leaves the minimap fields untouched even
though it changes layer extents (and the remove handler aborts before its
recompute — claim C1). -/
theorem minimap_recompute_amended (x y w h : ℚ) (rot : ℤ) (k : ArrowKey)
    (sel : ℕ) (wMini hMini wCanvas hCanvas : ℚ) (s : AppState) :
    ((onMotionDrag x y sel wMini hMini wCanvas hCanvas s).error = none →
      synced wMini hMini wCanvas hCanvas
        (onMotionDrag x y sel wMini hMini wCanvas hCanvas s).state) ∧
    ((onMotionPan x y wMini hMini wCanvas hCanvas s).error = none →
      synced wMini hMini wCanvas hCanvas
        (onMotionPan x y wMini hMini wCanvas hCanvas s).state) ∧
    ((onMousewheel x y rot wMini hMini wCanvas hCanvas s).error = none →
      synced wMini hMini wCanvas hCanvas
        (onMousewheel x y rot wMini hMini wCanvas hCanvas s).state) ∧
    ((onLayerAdd w h wMini hMini wCanvas hCanvas s).error = none →
      synced wMini hMini wCanvas hCanvas
        (onLayerAdd w h wMini hMini wCanvas hCanvas s).state) ∧
    ((onLayerDuplicate sel wMini hMini wCanvas hCanvas s).error = none →
      synced wMini hMini wCanvas hCanvas
        (onLayerDuplicate sel wMini hMini wCanvas hCanvas s).state) ∧
    ((onKeyDown k sel s).state.minimapDestinations = s.minimapDestinations ∧
      (onKeyDown k sel s).state.camera = s.camera) :=
  ⟨fun he => onMotionDrag_synced x y sel wMini hMini wCanvas hCanvas s he,
   fun he => onMotionPan_synced x y wMini hMini wCanvas hCanvas s he,
   fun he => onMousewheel_synced x y rot wMini hMini wCanvas hCanvas s he,
   fun he => onLayerAdd_synced w h wMini hMini wCanvas hCanvas s he,
   fun he => onLayerDuplicate_synced sel wMini hMini wCanvas hCanvas s he,
   onKeyDown_minimap_unchanged k sel s⟩

/-- Witness for the amended C8 on the reachable two-layer state: each
recomputing handler returns without raising there and leaves the minimap
in sync, and the arrow-key handler leaves the minimap fields unchanged. -/
theorem minimap_recompute_amended_witness :
    synced 400 400 400 400 (onMotionDrag 3 4 0 400 400 400 400 stateTwo).state ∧
    synced 400 400 400 400 (onMotionPan 3 4 400 400 400 400 stateTwo).state ∧
    synced 400 400 400 400 (onMousewheel 3 4 1 400 400 400 400 stateTwo).state ∧
    synced 400 400 400 400 (onLayerAdd 60 60 400 400 400 400 stateTwo).state ∧
    synced 400 400 400 400 (onLayerDuplicate 0 400 400 400 400 stateTwo).state ∧
    (onKeyDown ArrowKey.left 0 stateTwo).state.minimapDestinations =
      stateTwo.minimapDestinations ∧
    (onKeyDown ArrowKey.left 0 stateTwo).state.camera = stateTwo.camera :=
  ⟨(minimap_recompute_amended 3 4 60 60 1 ArrowKey.left 0 400 400 400 400 stateTwo).1
      (by decide),
   (minimap_recompute_amended 3 4 60 60 1 ArrowKey.left 0 400 400 400 400 stateTwo).2.1
      (by decide),
   (minimap_recompute_amended 3 4 60 60 1 ArrowKey.left 0 400 400 400 400 stateTwo).2.2.1
      (by decide),
   (minimap_recompute_amended 3 4 60 60 1 ArrowKey.left 0 400 400 400 400 stateTwo).2.2.2.1
      (by decide),
   (minimap_recompute_amended 3 4 60 60 1 ArrowKey.left 0 400 400 400 400 stateTwo).2.2.2.2.1
      (by decide),
   (minimap_recompute_amended 3 4 60 60 1 ArrowKey.left 0 400 400 400 400 stateTwo).2.2.2.2.2.1,
   (minimap_recompute_amended 3 4 60 60 1 ArrowKey.left 0 400 400 400 400 stateTwo).2.2.2.2.2.2⟩

end Cartograpy
